import Mathlib

set_option maxRecDepth 100000

/-!
Shallow embedding of `scripts/manager.py` (softsweb/traefik-setup).

The script is a linear sequence of filesystem writes, shell invocations and
console messages.  We embed it as pure functions from an abstract environment
(the outcomes of the external commands and the interactive inputs) to a trace
of effects plus a result.  Machine-level details that no claim depends on are
kept but flattened: a spawned subprocess command is recorded as the exact
command string handed to the shell, a written file as its path and full byte
content, a printed line as its text (ANSI colour codes elided, and the
`CalledProcessError` text of `run_command` abbreviated to the failing command).
`time.localtime` is modelled without a timezone offset; the epoch value passed
to the formatter is additionally returned so claims about the reported removal
instant are exact.
-/

/-- One observable effect of the script. -/
inductive Effect where
  | write : String → String → Effect   -- `open(path, "w").write(content)`
  | mkdir : String → Effect            -- `Path(dir).mkdir(parents=True, exist_ok=True)`
  | run : String → Effect              -- a subprocess invocation (argv joined / shell string)
  | chdir : String → Effect            -- `os.chdir(path)`
  | msg : String → Effect              -- a line printed to the console
deriving DecidableEq, Repr

/-- Exact prefix test on character lists. -/
def listPrefixOf : List Char → List Char → Bool
  | [], _ => true
  | _ :: _, [] => false
  | a :: as, b :: bs => a == b && listPrefixOf as bs

/-- Occurrence of `sub` inside `l`, the semantics of the Python `in` operator
on strings (substring containment). -/
def containsSub : List Char → List Char → Bool
  | [], sub => sub.isEmpty
  | a :: t, sub => listPrefixOf sub (a :: t) || containsSub t sub

/-- Python `sub in s` for strings. -/
def strContains (s sub : String) : Bool :=
  containsSub s.data sub.data

/-- Python truthiness-based `a or b` on strings: empty is falsy. -/
def pyOr (a b : String) : String :=
  if a = "" then b else a

/-- Python `str.strip()`: drop whitespace from both ends. -/
def pyStrip (s : String) : String :=
  ⟨List.reverse (List.dropWhile Char.isWhitespace
     (List.reverse (List.dropWhile Char.isWhitespace s.data)))⟩

/-- Python `str.lower()` (the responses the script compares against are ASCII). -/
def pyLower (s : String) : String :=
  ⟨s.data.map Char.toLower⟩

/-- `run_command` (manager.py lines 29-39): runs the command, returns its
success flag, and on failure prints an error line.  The `ok` parameter is the
environment-supplied outcome of the external command. -/
def runCmdEff (cmd : String) (ok : Bool) : List Effect :=
  Effect.run cmd :: (if ok then [] else [Effect.msg ("[ERROR] Command failed: " ++ cmd)])

/-- Result of a step that may have terminated the process via `sys.exit`. -/
inductive Outcome (α : Type) where
  | exited : Nat → Outcome α
  | ok : α → Outcome α
deriving Repr

/-- `check_docker` (lines 41-52): probe `docker --version` then `docker info`;
`sys.exit(1)` if either fails. -/
def check_docker (versionOk infoOk : Bool) : List Effect × Outcome Unit :=
  let t := Effect.msg "[INFO] Checking Docker installation..." :: runCmdEff "docker --version" versionOk
  if versionOk then
    let t := t ++ runCmdEff "docker info" infoOk
    if infoOk then
      (t ++ [Effect.msg "[SUCCESS] Docker is installed and running"], Outcome.ok ())
    else
      (t ++ [Effect.msg "[ERROR] Docker daemon is not running. Please start Docker first."], Outcome.exited 1)
  else
    (t ++ [Effect.msg "[ERROR] Docker is not installed. Please install Docker first."], Outcome.exited 1)

/-- `check_docker_compose` (lines 54-69): try `docker compose version`, then
`docker-compose --version`; return the CLI form that worked, else `sys.exit(1)`. -/
def check_docker_compose (v2Ok v1Ok : Bool) : List Effect × Outcome String :=
  let t := Effect.msg "[INFO] Checking Docker Compose..." :: runCmdEff "docker compose version" v2Ok
  if v2Ok then
    (t ++ [Effect.msg "[SUCCESS] Docker Compose is available"], Outcome.ok "docker compose")
  else
    let t := t ++ runCmdEff "docker-compose --version" v1Ok
    if v1Ok then
      (t ++ [Effect.msg "[SUCCESS] Docker Compose is available"], Outcome.ok "docker-compose")
    else
      (t ++ [Effect.msg "[ERROR] Docker Compose is not installed. Please install Docker Compose first."], Outcome.exited 1)

/-- The confirmation test of `get_user_input` line 81:
`confirm.strip().lower() in [\x27y\x27, \x27yes\x27]`. -/
def confirmAccepted (confirm : String) : Bool :=
  pyLower (pyStrip confirm) == "y" || pyLower (pyStrip confirm) == "yes"

/-- `get_user_input` (lines 71-85): strip both inputs; when a test domain was
given, ask for confirmation and `sys.exit(0)` unless it is accepted. -/
def get_user_input (email testDomain confirm : String) : List Effect × Outcome (String × String) :=
  let t := [Effect.msg "[INFO] Traefik Setup Configuration", Effect.msg "=================================="]
  let e := pyStrip email
  let d := pyStrip testDomain
  if d = "" then
    (t, Outcome.ok (e, d))
  else if confirmAccepted confirm then
    (t, Outcome.ok (e, d))
  else
    (t ++ [Effect.msg "[INFO] Setup cancelled."], Outcome.exited 0)

/-- `create_directories` (lines 87-98). -/
def create_directories : List Effect :=
  [Effect.mkdir "/opt/traefik", Effect.mkdir "/etc/traefik", Effect.mkdir "/etc/traefik/certs",
   Effect.msg "[SUCCESS] Directories created"]

/-- The rendered Traefik configuration (lines 102-130), with the Python
`{email or "admin@example.com"}` substitution. -/
def traefik_yml (email : String) : String :=
  "# Traefik Global Configuration\napi:\n  dashboard: true\n  insecure: true\n\nentryPoints:\n  web:\n    address: \":80\"\n    http:\n      redirections:\n        entryPoint:\n          to: websecure\n          scheme: https\n  websecure:\n    address: \":443\"\n\nproviders:\n  docker:\n    endpoint: \"unix:///var/run/docker.sock\"\n    exposedByDefault: false\n\ncertificatesResolvers:\n  letsencrypt:\n    acme:\n      email: " ++ pyOr email "admin@example.com" ++ "\n      storage: /etc/traefik/certs/acme.json\n      httpChallenge:\n        entryPoint: web\n"

/-- `create_traefik_config` (lines 100-135). -/
def create_traefik_config (email : String) : List Effect :=
  [Effect.write "/etc/traefik/traefik.yml" (traefik_yml email),
   Effect.msg "[SUCCESS] Traefik configuration created"]

/-- The static compose manifest for the proxy itself (lines 139-166); a plain
(non-f) Python string, so the shell-style default substitution is literal text. -/
def traefik_compose_yml : String :=
  "version: \x273.8\x27\n\nservices:\n  traefik:\n    image: traefik:v2.10\n    container_name: traefik\n    restart: unless-stopped\n    networks:\n      - traefik\n    ports:\n      - \"80:80\"\n      - \"443:443\"\n    volumes:\n      - /var/run/docker.sock:/var/run/docker.sock:ro\n      - /etc/traefik/traefik.yml:/etc/traefik/traefik.yml:ro\n      - /etc/traefik/certs:/etc/traefik/certs\n    labels:\n      - \"traefik.enable=true\"\n      - \"traefik.http.routers.traefik.rule=Host(`traefik.$\x7bTEST_DOMAIN:-localhost\x7d`)\"\n      - \"traefik.http.routers.traefik.service=api@internal\"\n      - \"traefik.http.routers.traefik.entrypoints=websecure\"\n      - \"traefik.http.routers.traefik.tls.certresolver=letsencrypt\"\n\nnetworks:\n  traefik:\n    external: true\n    name: traefik\n"

/-- `create_traefik_compose` (lines 137-171). -/
def create_traefik_compose : List Effect :=
  [Effect.write "/opt/traefik/docker-compose.yml" traefik_compose_yml,
   Effect.msg "[SUCCESS] Docker Compose configuration created"]

/-- The rendered test-page compose manifest (lines 178-197). -/
def test_compose_yml (testDomain : String) : String :=
  "version: \x273.8\x27\n\nservices:\n  test-page:\n    image: softsweb/traefik-test-page:latest\n    container_name: traefik-test-page\n    restart: no\n    networks:\n      - traefik\n    labels:\n      - \"traefik.enable=true\"\n      - \"traefik.http.routers.test-page.rule=Host(`" ++ testDomain ++ "`)\"\n      - \"traefik.http.routers.test-page.entrypoints=websecure\"\n      - \"traefik.http.routers.test-page.tls.certresolver=letsencrypt\"\n\nnetworks:\n  traefik:\n    external: true\n    name: traefik\n"

/-- `create_test_compose` (lines 173-202): returns immediately when the test
domain is empty. -/
def create_test_compose (testDomain : String) : List Effect :=
  if testDomain = "" then []
  else
    [Effect.write "/opt/traefik/docker-compose-test.yml" (test_compose_yml testDomain),
     Effect.msg "[SUCCESS] Test page configuration created"]

/-- The environment file content (line 208). -/
def env_file_content (testDomain : String) : String :=
  "TEST_DOMAIN=" ++ testDomain

/-- `create_env_file` (lines 204-209): only written when a test domain was given. -/
def create_env_file (testDomain : String) : List Effect :=
  if testDomain = "" then []
  else
    [Effect.write "/opt/traefik/.env" (env_file_content testDomain),
     Effect.msg "[SUCCESS] Environment file created"]

/-- The `docker network ls --format` invocation of line 215. -/
def networkLsCmd : String :=
  "docker network ls --format \x7b\x7b.Name\x7d\x7d"

/-- Standard output of `docker network ls --format` on a daemon whose networks
are `nets`: one name per line. -/
def dockerNetworkListing : List String → String
  | [] => ""
  | n :: rest => n ++ "\n" ++ dockerNetworkListing rest

/-- `setup_docker_network` (lines 211-222), as a transformer of the set of
existing network names.  The guard is the Python substring test
`"traefik" not in result.stdout`.  `createOk` is the outcome of the
`docker network create` invocation; the network is added exactly when that
command succeeds. -/
def setup_docker_network (nets : List String) (createOk : Bool) : List Effect × List String :=
  let pre := [Effect.msg "[INFO] Setting up Docker network...", Effect.run networkLsCmd]
  if strContains (dockerNetworkListing nets) "traefik" then
    (pre ++ [Effect.msg "[WARNING] Docker network \x27traefik\x27 already exists"], nets)
  else
    (pre ++ runCmdEff "docker network create traefik" createOk ++
       (if createOk then [Effect.msg "[SUCCESS] Docker network \x27traefik\x27 created"] else []),
     if createOk then nets ++ ["traefik"] else nets)

/-- `deploy_traefik` (lines 224-235): pull (outcome ignored), then `up -d`;
success message only when `up` succeeded. -/
def deploy_traefik (composeCmd : String) (pullOk upOk : Bool) : List Effect :=
  [Effect.msg "[INFO] Deploying Traefik...", Effect.chdir "/opt/traefik"] ++
  runCmdEff (composeCmd ++ " pull") pullOk ++
  runCmdEff (composeCmd ++ " up -d") upOk ++
  (if upOk then [Effect.msg "[SUCCESS] Traefik deployed successfully"] else [])

/-- The lines of the generated teardown script (lines 250-257); the script text
is their newline join, ending in a newline (hence the final empty line). -/
def removal_script_lines (composeCmd : String) : List String :=
  ["#!/bin/bash",
   "sleep 600",
   "echo \"\"",
   "echo \"⏰ Time is up! Removing test page...\"",
   composeCmd ++ " -f /opt/traefik/docker-compose-test.yml down",
   "rm -f /opt/traefik/docker-compose-test.yml",
   "echo \"✅ Test page removed successfully\"",
   ""]

/-- The generated teardown script text. -/
def removal_script (composeCmd : String) : String :=
  String.intercalate "\n" (removal_script_lines composeCmd)

/-- The detached launch command of line 263. -/
def launchCmd : String :=
  "nohup /tmp/remove_test_page.sh > /dev/null 2>&1 &"

/-- Two-digit decimal rendering. -/
def pad2 (n : Nat) : String :=
  if n < 10 then "0" ++ toString n else toString n

/-- `time.strftime("%H:%M:%S", time.localtime(t))`, timezone offset elided. -/
def hhmmss (t : Nat) : String :=
  pad2 (t / 3600 % 24) ++ ":" ++ pad2 (t % 3600 / 60) ++ ":" ++ pad2 (t % 60)

/-- `deploy_test_page` (lines 237-266).  `now` is `time.time()` at the report;
the second component is the epoch instant whose rendering is reported as the
removal time (`none` when nothing was reported). -/
def deploy_test_page (composeCmd testDomain : String) (upOk chmodOk nohupOk : Bool)
    (now : Nat) : List Effect × Option Nat :=
  if testDomain = "" then ([], none)
  else
    let pre := [Effect.msg "[INFO] Deploying test page (will auto-remove in 10 minutes)...",
                Effect.chdir "/opt/traefik"] ++
               runCmdEff (composeCmd ++ " -f docker-compose-test.yml up -d") upOk
    if upOk then
      (pre ++
       [Effect.msg ("[SUCCESS] Test page deployed at https://" ++ testDomain),
        Effect.write "/tmp/remove_test_page.sh" (removal_script composeCmd)] ++
       runCmdEff "chmod +x /tmp/remove_test_page.sh" chmodOk ++
       runCmdEff launchCmd nohupOk ++
       [Effect.msg ("[WARNING] Test page will auto-remove in 10 minutes (at " ++ hhmmss (now + 600) ++ ")")],
       some (now + 600))
    else
      (pre, none)

/-- `display_final_info` (lines 268-300): purely presentational console output. -/
def display_final_info (testDomain : String) : List Effect :=
  [Effect.msg "[SUCCESS] Traefik setup completed!"] ++
  (if testDomain = "" then [Effect.msg "No test domain provided - only Traefik is running."]
   else [Effect.msg ("Your test page is available at: https://" ++ testDomain)])

/-- The abstract environment of one run: interactive inputs and the outcomes of
every external command, plus the clock and the daemon network list. -/
structure Env where
  dockerVersionOk : Bool
  dockerInfoOk : Bool
  composeV2Ok : Bool
  composeV1Ok : Bool
  email : String
  testDomain : String
  confirm : String
  networks : List String
  netCreateOk : Bool
  pullOk : Bool
  upOk : Bool
  testUpOk : Bool
  chmodOk : Bool
  nohupOk : Bool
  now : Nat

/-- Result of a whole run: process exit code, effect trace, and the reported
removal instant (if any). -/
structure MainResult where
  exitCode : Nat
  trace : List Effect
  reportedRemoval : Option Nat
deriving Repr

/-- `main` (lines 302-330).  A Python script that runs `main()` to completion
exits with code 0; `sys.exit(n)` anywhere aborts with code `n`. -/
def pymain (env : Env) : MainResult :=
  let t0 := [Effect.msg "[INFO] Starting Traefik automated setup..."]
  match check_docker env.dockerVersionOk env.dockerInfoOk with
  | (t1, Outcome.exited c) => ⟨c, t0 ++ t1, none⟩
  | (t1, Outcome.ok _) =>
    match check_docker_compose env.composeV2Ok env.composeV1Ok with
    | (t2, Outcome.exited c) => ⟨c, t0 ++ t1 ++ t2, none⟩
    | (t2, Outcome.ok composeCmd) =>
      match get_user_input env.email env.testDomain env.confirm with
      | (t3, Outcome.exited c) => ⟨c, t0 ++ t1 ++ t2 ++ t3, none⟩
      | (t3, Outcome.ok (email, testDomain)) =>
        let t4 := create_directories
        let t5 := create_traefik_config email
        let t6 := create_traefik_compose
        let t7 := create_test_compose testDomain
        let t8 := create_env_file testDomain
        let t9 := (setup_docker_network env.networks env.netCreateOk).1
        let t10 := deploy_traefik composeCmd env.pullOk env.upOk
        let r := deploy_test_page composeCmd testDomain env.testUpOk env.chmodOk env.nohupOk env.now
        let t12 := display_final_info testDomain
        ⟨0, t0 ++ t1 ++ t2 ++ t3 ++ t4 ++ t5 ++ t6 ++ t7 ++ t8 ++ t9 ++ t10 ++ r.1 ++ t12, r.2⟩

/-! ### Observation predicates on effects -/

/-- The detached launch of the teardown script (line 263). -/
def isLaunch : Effect → Bool
  | Effect.run c => c == launchCmd
  | _ => false

/-- A file write. -/
def isWriteE : Effect → Bool
  | Effect.write _ _ => true
  | _ => false

/-- A filesystem mutation (file write or directory creation). -/
def isFsWrite : Effect → Bool
  | Effect.write _ _ => true
  | Effect.mkdir _ => true
  | _ => false

/-- A file write whose target is not one of the two long-lived proxy artifacts. -/
def isNonProxyWrite : Effect → Bool
  | Effect.write p _ => !(p == "/etc/traefik/traefik.yml" || p == "/opt/traefik/docker-compose.yml")
  | _ => false

/-- A deployment-side command: a compose `pull`, a compose `up -d`, or the
network creation. -/
def isDeployCmd : Effect → Bool
  | Effect.run c => strContains c " up -d" || strContains c " pull" || c == "docker network create traefik"
  | _ => false

/-- An error line printed by `print_error`. -/
def isErrorMsg : Effect → Bool
  | Effect.msg m => strContains m "[ERROR]"
  | _ => false

/-- Any effect other than a printed line. -/
def isNonMsg : Effect → Bool
  | Effect.msg _ => false
  | _ => true

/-- A compose `up -d` invocation (a deployment start). -/
def isUpCmd : Effect → Bool
  | Effect.run c => strContains c " up -d"
  | _ => false

/-- The four fixed paths of the rendered configuration artifacts. -/
def artifactPaths : List String :=
  ["/etc/traefik/traefik.yml", "/opt/traefik/docker-compose.yml",
   "/opt/traefik/docker-compose-test.yml", "/opt/traefik/.env"]

/-- The configuration artifacts written during a trace: path and byte content
of every write whose target is one of the four artifact paths. -/
def artifactWrites (tr : List Effect) : List (String × String) :=
  tr.filterMap (fun e =>
    match e with
    | Effect.write p c => if p ∈ artifactPaths then some (p, c) else none
    | _ => none)

/-- The artifacts the Configuration Materializer produces for the given
(stripped) inputs. -/
def renderedArtifacts (email testDomain : String) : List (String × String) :=
  [("/etc/traefik/traefik.yml", traefik_yml email),
   ("/opt/traefik/docker-compose.yml", traefik_compose_yml)] ++
  (if testDomain = "" then []
   else [("/opt/traefik/docker-compose-test.yml", test_compose_yml testDomain),
         ("/opt/traefik/.env", env_file_content testDomain)])

/-- The teardown contract checked for C1: ordered steps inside the generated
script (sleep for 600s, compose `down` on the test manifest, manifest file
deletion, completion notice), the script written to its fixed temporary path
and then marked executable and launched in order, and the launch command being
the detached `nohup` form with both output streams redirected and a trailing
background `&`. -/
def teardownScheduled (composeCmd testDomain : String) (chmodOk nohupOk : Bool) (now : Nat) : Prop :=
  ["sleep 600",
   composeCmd ++ " -f /opt/traefik/docker-compose-test.yml down",
   "rm -f /opt/traefik/docker-compose-test.yml",
   "echo \"✅ Test page removed successfully\""].Sublist (removal_script_lines composeCmd)
  ∧ [Effect.write "/tmp/remove_test_page.sh" (removal_script composeCmd),
     Effect.run "chmod +x /tmp/remove_test_page.sh",
     Effect.run launchCmd].Sublist
      (deploy_test_page composeCmd testDomain true chmodOk nohupOk now).1
  ∧ strContains launchCmd "nohup " = true
  ∧ strContains launchCmd "> /dev/null 2>&1" = true
  ∧ launchCmd.data.getLast? = some '&'

/-- Witness environment A: every probe succeeds, no test domain. -/
def envA : Env :=
  Env.mk true true true true "user@example.com" "" "" [] true true true true true true 0

/-- Witness environment B: same inputs as A, different clock, network list and
pull outcome. -/
def envB : Env :=
  Env.mk true true true true "user@example.com" "" "" ["foo"] true false true true true true 42

/-- Witness environment C: test domain given, confirmation declined. -/
def envC : Env :=
  Env.mk true true true true "" "test.example.com" "n" [] true true true true true true 0

/-! ### Helper lemmas about substring containment -/

theorem listPrefixOf_append (sub post : List Char) : listPrefixOf sub (sub ++ post) = true := by
  induction sub with
  | nil => rfl
  | cons a as ih => simp [listPrefixOf, ih]

theorem containsSub_nil_right (l : List Char) : containsSub l [] = true := by
  cases l with
  | nil => rfl
  | cons a t => simp [containsSub, listPrefixOf]

theorem containsSub_self_append (sub post : List Char) : containsSub (sub ++ post) sub = true := by
  cases sub with
  | nil => simpa using containsSub_nil_right post
  | cons a as =>
    have h := listPrefixOf_append (a :: as) post
    simp only [List.cons_append] at h
    simp [containsSub, h]

theorem containsSub_cons (c : Char) (l sub : List Char) (h : containsSub l sub = true) :
    containsSub (c :: l) sub = true := by
  simp [containsSub, h]

theorem containsSub_append_left (pre l sub : List Char) (h : containsSub l sub = true) :
    containsSub (pre ++ l) sub = true := by
  induction pre with
  | nil => simpa using h
  | cons a as ih => simpa using containsSub_cons a (as ++ l) sub ih

/-- A network literally named `traefik` makes the listing contain `traefik`
as a substring. -/
theorem dockerNetworkListing_mem (nets : List String) (h : "traefik" ∈ nets) :
    strContains (dockerNetworkListing nets) "traefik" = true := by
  induction nets with
  | nil => cases h
  | cons n rest ih =>
    rcases List.mem_cons.mp h with h1 | h2
    · subst h1
      show containsSub ("traefik" ++ "\n" ++ dockerNetworkListing rest).data "traefik".data = true
      rw [String.data_append, String.data_append, List.append_assoc]
      exact containsSub_self_append _ _
    · show containsSub (n ++ "\n" ++ dockerNetworkListing rest).data "traefik".data = true
      rw [String.data_append]
      exact containsSub_append_left _ _ _ (ih h2)

/-- The compose `up -d` invocation of the test page is never the detached
launch command (they end in different characters). -/
theorem up_cmd_ne_launchCmd (composeCmd : String) :
    composeCmd ++ " -f docker-compose-test.yml up -d" ≠ launchCmd := by
  intro h
  have h2 : (composeCmd ++ " -f docker-compose-test.yml up -d").data.getLast?
      = launchCmd.data.getLast? := by rw [h]
  rw [String.data_append, List.getLast?_append_of_ne_nil _ (by decide)] at h2
  exact absurd h2 (by decide)

/-! ### Claim theorems -/

/-- C5: for input test domain `test.example.com` and empty email, the rendered
proxy configuration contains the fallback contact `admin@example.com`, the test
manifest routes the rule `Host(test.example.com)`, the environment file
contains `TEST_DOMAIN=test.example.com`, and each artifact is indeed written to
its fixed path by the corresponding materialization step. -/
theorem claim_c5_scenario_fallback_contact :
    strContains (traefik_yml "") "admin@example.com" = true
    ∧ strContains (test_compose_yml "test.example.com") "Host(`test.example.com`)" = true
    ∧ strContains (env_file_content "test.example.com") "TEST_DOMAIN=test.example.com" = true
    ∧ Effect.write "/etc/traefik/traefik.yml" (traefik_yml "") ∈ create_traefik_config ""
    ∧ Effect.write "/opt/traefik/docker-compose-test.yml" (test_compose_yml "test.example.com")
        ∈ create_test_compose "test.example.com"
    ∧ Effect.write "/opt/traefik/.env" (env_file_content "test.example.com")
        ∈ create_env_file "test.example.com" := by
  decide

/-- C4 counterexample: when the only existing network is `traefik-net`, the
name `traefik` is absent from the network list, yet the provisioner issues no
create command (its guard is a substring test on the listing output), and
afterwards still no network named `traefik` exists. -/
theorem claim_c4_counterexample_substring_guard :
    "traefik" ∉ ["traefik-net"]
    ∧ Effect.run "docker network create traefik" ∉ (setup_docker_network ["traefik-net"] true).1
    ∧ (setup_docker_network ["traefik-net"] true).2.count "traefik" = 0 := by
  decide

/-- C4 (amended): network provisioning lists the existing networks and creates
the network named `traefik` if and only if the string `traefik` does not occur
as a substring of the listing output (a name such as `traefik-net` therefore
suppresses creation); when it occurs the call is a no-op and not an error.
Calling it twice in sequence never errors, the second call never creates and
leaves the network list unchanged, and the first call leaves exactly one
network named `traefik` when no existing name contained `traefik`, otherwise
exactly the networks of that name that already existed. -/
theorem claim_c4_network_idempotent_substring (nets : List String) :
    ((Effect.run "docker network create traefik" ∈ (setup_docker_network nets true).1)
      ↔ strContains (dockerNetworkListing nets) "traefik" = false)
    ∧ Effect.run "docker network create traefik"
        ∉ (setup_docker_network (setup_docker_network nets true).2 true).1
    ∧ (setup_docker_network (setup_docker_network nets true).2 true).2
        = (setup_docker_network nets true).2
    ∧ (setup_docker_network nets true).1.countP isErrorMsg = 0
    ∧ (setup_docker_network (setup_docker_network nets true).2 true).1.countP isErrorMsg = 0
    ∧ ((setup_docker_network nets true).2.count "traefik"
        = if strContains (dockerNetworkListing nets) "traefik" = true
          then nets.count "traefik" else 1) := by
  by_cases hc : strContains (dockerNetworkListing nets) "traefik" = true
  · simp +decide [setup_docker_network, hc, isErrorMsg, runCmdEff, networkLsCmd,
      List.countP_cons, List.countP_append]
  · have hnot : "traefik" ∉ nets := fun hm => hc (dockerNetworkListing_mem nets hm)
    have hmem2 : strContains (dockerNetworkListing (nets ++ ["traefik"])) "traefik" = true :=
      dockerNetworkListing_mem (nets ++ ["traefik"]) (by simp)
    simp +decide [setup_docker_network, hc, hmem2, isErrorMsg, runCmdEff, networkLsCmd,
      List.countP_cons, List.countP_append, List.count_append,
      List.count_eq_zero.mpr hnot]

/-- C7: a failure of the image-pull command never blocks the start: for every
outcome of the pull invocation the `up -d` invocation is still executed, and a
pull failure changes nothing but printed log lines (every non-message effect of
the run with a failing pull equals that of the run with a succeeding pull). -/
theorem claim_c7_pull_failure_does_not_block (composeCmd : String) (pullOk upOk : Bool) :
    Effect.run (composeCmd ++ " up -d") ∈ deploy_traefik composeCmd pullOk upOk
    ∧ (deploy_traefik composeCmd false upOk).filter isNonMsg
        = (deploy_traefik composeCmd true upOk).filter isNonMsg := by
  constructor
  · cases pullOk <;> cases upOk <;> simp [deploy_traefik, runCmdEff]
  · cases upOk <;> simp [deploy_traefik, runCmdEff, isNonMsg]

/-- C1: for every non-empty test domain, when the test-page deployment command
succeeds the program synthesizes the one-shot teardown script with its steps in
order (sleep 600, compose down on docker-compose-test.yml, delete the manifest,
emit a completion notice), writes it to /tmp/remove_test_page.sh, marks it
executable, and launches it detached (nohup, output streams to /dev/null,
backgrounded) without waiting. -/
theorem claim_c1_teardown_script (composeCmd testDomain : String) (chmodOk nohupOk : Bool)
    (now : Nat) (htd : testDomain ≠ "") :
    teardownScheduled composeCmd testDomain chmodOk nohupOk now := by
  refine ⟨?_, ?_, by decide, by decide, by decide⟩
  · exact .cons _ (.cons₂ _ (.cons _ (.cons _ (.cons₂ _ (.cons₂ _ (.cons₂ _ (.cons _ .slnil)))))))
  · unfold deploy_test_page
    rw [if_neg htd]
    cases chmodOk <;> cases nohupOk <;>
      first
      | exact .cons _ (.cons _ (.cons _ (.cons _ (.cons₂ _ (.cons₂ _ (.cons₂ _ (.cons _ .slnil)))))))
      | exact .cons _ (.cons _ (.cons _ (.cons _ (.cons₂ _ (.cons₂ _ (.cons₂ _ (.cons _ (.cons _ .slnil))))))))
      | exact .cons _ (.cons _ (.cons _ (.cons _ (.cons₂ _ (.cons₂ _ (.cons _ (.cons₂ _ (.cons _ .slnil))))))))
      | exact .cons _ (.cons _ (.cons _ (.cons _ (.cons₂ _ (.cons₂ _ (.cons _ (.cons₂ _ (.cons _ (.cons _ .slnil)))))))))

/-- C1 witness at a concrete input. -/
theorem claim_c1_teardown_script_witness :
    ("test.example.com" : String) ≠ ""
    ∧ teardownScheduled "docker compose" "test.example.com" true true 0 :=
  ⟨by decide, claim_c1_teardown_script "docker compose" "test.example.com" true true 0 (by decide)⟩

/-- C2: for every non-empty test domain whose deployment succeeds, exactly one
detached teardown launch appears in the trace, and the removal instant reported
to the user is the deploy time plus 600 seconds. -/
theorem claim_c2_single_teardown_and_time (composeCmd testDomain : String)
    (chmodOk nohupOk : Bool) (now : Nat) (htd : testDomain ≠ "") :
    (deploy_test_page composeCmd testDomain true chmodOk nohupOk now).1.countP isLaunch = 1
    ∧ (deploy_test_page composeCmd testDomain true chmodOk nohupOk now).2 = some (now + 600) := by
  have hup : ((composeCmd ++ " -f docker-compose-test.yml up -d") == launchCmd) = false :=
    beq_eq_false_iff_ne.mpr (up_cmd_ne_launchCmd composeCmd)
  unfold deploy_test_page
  rw [if_neg htd]
  cases chmodOk <;> cases nohupOk <;>
    simp +decide [runCmdEff, isLaunch, List.countP_cons, List.countP_append, hup]

/-- C2 witness at a concrete input. -/
theorem claim_c2_single_teardown_and_time_witness :
    ("test.example.com" : String) ≠ ""
    ∧ ((deploy_test_page "docker compose" "test.example.com" true true true 0).1.countP isLaunch = 1
       ∧ (deploy_test_page "docker compose" "test.example.com" true true true 0).2 = some (0 + 600)) :=
  ⟨by decide,
   claim_c2_single_teardown_and_time "docker compose" "test.example.com" true true 0 (by decide)⟩

/-- C3: for every non-empty test domain, if the command that starts the test
resource fails then no teardown is scheduled: the trace contains no file write
(in particular no teardown script), no detached launch, and no removal time is
reported. -/
theorem claim_c3_failed_start_no_teardown (composeCmd testDomain : String)
    (chmodOk nohupOk : Bool) (now : Nat) (htd : testDomain ≠ "") :
    (deploy_test_page composeCmd testDomain false chmodOk nohupOk now).1.countP isWriteE = 0
    ∧ (deploy_test_page composeCmd testDomain false chmodOk nohupOk now).1.countP isLaunch = 0
    ∧ (deploy_test_page composeCmd testDomain false chmodOk nohupOk now).2 = none := by
  have hup : ((composeCmd ++ " -f docker-compose-test.yml up -d") == launchCmd) = false :=
    beq_eq_false_iff_ne.mpr (up_cmd_ne_launchCmd composeCmd)
  unfold deploy_test_page
  rw [if_neg htd]
  simp +decide [runCmdEff, isWriteE, isLaunch, List.countP_cons, List.countP_append, hup]

/-- C3 witness at a concrete input. -/
theorem claim_c3_failed_start_no_teardown_witness :
    ("test.example.com" : String) ≠ ""
    ∧ ((deploy_test_page "docker compose" "test.example.com" false true true 0).1.countP isWriteE = 0
       ∧ (deploy_test_page "docker compose" "test.example.com" false true true 0).1.countP isLaunch = 0
       ∧ (deploy_test_page "docker compose" "test.example.com" false true true 0).2 = none) :=
  ⟨by decide,
   claim_c3_failed_start_no_teardown "docker compose" "test.example.com" true true 0 (by decide)⟩

/-! ### Distribution lemmas for trace observations -/

@[simp] theorem countP_ite (p : Effect → Bool) (c : Prop) [Decidable c] (a b : List Effect) :
    (if c then a else b).countP p = if c then a.countP p else b.countP p := by
  split <;> rfl

@[simp] theorem filterMap_ite (f : Effect → Option (String × String)) (c : Prop) [Decidable c]
    (a b : List Effect) :
    (if c then a else b).filterMap f = if c then a.filterMap f else b.filterMap f := by
  split <;> rfl

@[simp] theorem countP_isLaunch_network (nets : List String) (b : Bool) :
    (setup_docker_network nets b).1.countP isLaunch = 0 := by
  simp only [setup_docker_network]
  split <;> simp +decide [runCmdEff, isLaunch, networkLsCmd, launchCmd,
    List.countP_append, List.countP_cons]

@[simp] theorem countP_isUpCmd_network (nets : List String) (b : Bool) :
    (setup_docker_network nets b).1.countP isUpCmd = 0 := by
  simp only [setup_docker_network]
  split <;> simp +decide [runCmdEff, isUpCmd, networkLsCmd,
    List.countP_append, List.countP_cons]

@[simp] theorem countP_isFsWrite_network (nets : List String) (b : Bool) :
    (setup_docker_network nets b).1.countP isFsWrite = 0 := by
  simp only [setup_docker_network]
  split <;> simp +decide [runCmdEff, isFsWrite, networkLsCmd,
    List.countP_append, List.countP_cons]

@[simp] theorem countP_isNonProxyWrite_network (nets : List String) (b : Bool) :
    (setup_docker_network nets b).1.countP isNonProxyWrite = 0 := by
  simp only [setup_docker_network]
  split <;> simp +decide [runCmdEff, isNonProxyWrite, networkLsCmd,
    List.countP_append, List.countP_cons]

@[simp] theorem artifactWrites_nil : artifactWrites [] = [] := rfl

@[simp] theorem artifactWrites_append (a b : List Effect) :
    artifactWrites (a ++ b) = artifactWrites a ++ artifactWrites b := by
  simp [artifactWrites]

@[simp] theorem artifactWrites_cons_msg (s : String) (tr : List Effect) :
    artifactWrites (Effect.msg s :: tr) = artifactWrites tr := by
  simp [artifactWrites]

@[simp] theorem artifactWrites_cons_run (s : String) (tr : List Effect) :
    artifactWrites (Effect.run s :: tr) = artifactWrites tr := by
  simp [artifactWrites]

@[simp] theorem artifactWrites_cons_chdir (s : String) (tr : List Effect) :
    artifactWrites (Effect.chdir s :: tr) = artifactWrites tr := by
  simp [artifactWrites]

@[simp] theorem artifactWrites_cons_mkdir (s : String) (tr : List Effect) :
    artifactWrites (Effect.mkdir s :: tr) = artifactWrites tr := by
  simp [artifactWrites]

@[simp] theorem artifactWrites_cons_write (p c : String) (tr : List Effect) :
    artifactWrites (Effect.write p c :: tr)
      = (if p ∈ artifactPaths then [(p, c)] else []) ++ artifactWrites tr := by
  simp only [artifactWrites, List.filterMap_cons]
  split <;> simp_all [artifactWrites]

@[simp] theorem artifactWrites_ite (c : Prop) [Decidable c] (a b : List Effect) :
    artifactWrites (if c then a else b) = if c then artifactWrites a else artifactWrites b := by
  split <;> rfl

@[simp] theorem artifactWrites_network (nets : List String) (b : Bool) :
    artifactWrites (setup_docker_network nets b).1 = [] := by
  simp only [setup_docker_network]
  split <;> simp [runCmdEff]

/-- Every run that reaches materialization writes exactly the rendered
artifacts determined by the stripped email and test-domain inputs. -/
theorem artifactWrites_pymain (env : Env)
    (hv : env.dockerVersionOk = true) (hi : env.dockerInfoOk = true)
    (hcomp : (env.composeV2Ok || env.composeV1Ok) = true)
    (hgate : (pyStrip env.testDomain == "" || confirmAccepted env.confirm) = true) :
    artifactWrites (pymain env).trace
      = renderedArtifacts (pyStrip env.email) (pyStrip env.testDomain) := by
  obtain ⟨v, i, c2, c1, em, td, cf, nets, nc, pl, up, tup, ch, nh, now⟩ := env
  simp only [Env.dockerVersionOk, Env.dockerInfoOk, Env.composeV2Ok, Env.composeV1Ok,
    Env.testDomain, Env.confirm, Env.email] at hv hi hcomp hgate ⊢
  subst hv; subst hi
  by_cases hd : pyStrip td = ""
  · cases c2 <;> cases c1 <;>
      simp_all +decide [pymain, check_docker, check_docker_compose, get_user_input,
        create_directories, create_traefik_config, create_traefik_compose, create_test_compose,
        create_env_file, deploy_traefik, deploy_test_page, display_final_info,
        runCmdEff, renderedArtifacts, artifactPaths]
  · have hcf : confirmAccepted cf = true := by
      rcases Bool.or_eq_true_iff.mp hgate with h | h
      · exact absurd (by simpa using h) hd
      · exact h
    cases c2 <;> cases c1 <;> cases tup <;>
      simp_all +decide [pymain, check_docker, check_docker_compose, get_user_input,
        create_directories, create_traefik_config, create_traefik_compose, create_test_compose,
        create_env_file, deploy_traefik, deploy_test_page, display_final_info,
        runCmdEff, renderedArtifacts, artifactPaths]

/-- C9: the process exits with code 0 on normal completion and on explicit
cancellation at the confirmation prompt, and with code 1 exactly when an
environment check fails: the engine binary probe fails, the daemon probe
fails, or no orchestration CLI variant is found. -/
theorem claim_c9_exit_codes (env : Env) :
    (pymain env).exitCode
      = if env.dockerVersionOk && env.dockerInfoOk && (env.composeV2Ok || env.composeV1Ok)
        then 0 else 1 := by
  obtain ⟨v, i, c2, c1, em, td, cf, nets, nc, pl, up, tup, ch, nh, now⟩ := env
  by_cases hd : pyStrip td = "" <;> by_cases hcf : confirmAccepted cf = true <;>
    cases v <;> cases i <;> cases c2 <;> cases c1 <;>
      simp [pymain, check_docker, check_docker_compose, get_user_input, hd, hcf]

/-- C8: for every run whose (stripped) test-domain input is empty, no write
outside the two long-lived proxy artifacts occurs (in particular no test
manifest, no environment file, no teardown script), no detached teardown is
launched, and no removal time is reported. -/
theorem claim_c8_empty_domain_frame (env : Env) (htd : pyStrip env.testDomain = "") :
    (pymain env).trace.countP isNonProxyWrite = 0
    ∧ (pymain env).trace.countP isLaunch = 0
    ∧ (pymain env).reportedRemoval = none := by
  obtain ⟨v, i, c2, c1, em, td, cf, nets, nc, pl, up, tup, ch, nh, now⟩ := env
  simp only [Env.testDomain] at htd
  cases v <;> cases i <;> cases c2 <;> cases c1 <;>
    simp +decide [pymain, check_docker, check_docker_compose, get_user_input, htd,
      create_directories, create_traefik_config, create_traefik_compose, create_test_compose,
      create_env_file, deploy_traefik, deploy_test_page, display_final_info,
      runCmdEff, isNonProxyWrite, isLaunch, launchCmd,
      List.countP_append, List.countP_cons]

/-- C8 witness at a concrete environment. -/
theorem claim_c8_empty_domain_frame_witness :
    pyStrip envA.testDomain = ""
    ∧ ((pymain envA).trace.countP isNonProxyWrite = 0
       ∧ (pymain envA).trace.countP isLaunch = 0
       ∧ (pymain envA).reportedRemoval = none) :=
  ⟨by decide, claim_c8_empty_domain_frame envA (by decide)⟩

/-- C10: when the environment checks pass and a (stripped) test domain was
given, the run always exits with code 0; it performs a filesystem mutation if
and only if the confirmation response is accepted, likewise it issues a
deployment start if and only if the response is accepted; and a response is
accepted exactly when it equals `y` or `yes` after stripping surrounding
whitespace and lowercasing. -/
theorem claim_c10_confirmation_gate (env : Env)
    (hv : env.dockerVersionOk = true) (hi : env.dockerInfoOk = true)
    (hcomp : (env.composeV2Ok || env.composeV1Ok) = true)
    (htd : pyStrip env.testDomain ≠ "") :
    (pymain env).exitCode = 0
    ∧ ((pymain env).trace.countP isFsWrite = 0 ↔ confirmAccepted env.confirm = false)
    ∧ ((pymain env).trace.countP isUpCmd = 0 ↔ confirmAccepted env.confirm = false)
    ∧ confirmAccepted env.confirm
        = (pyLower (pyStrip env.confirm) == "y" || pyLower (pyStrip env.confirm) == "yes") := by
  obtain ⟨v, i, c2, c1, em, td, cf, nets, nc, pl, up, tup, ch, nh, now⟩ := env
  simp only [Env.dockerVersionOk, Env.dockerInfoOk, Env.composeV2Ok, Env.composeV1Ok,
    Env.testDomain, Env.confirm] at hv hi hcomp htd ⊢
  subst hv; subst hi
  by_cases hcf : confirmAccepted cf = true <;>
    cases c2 <;> cases c1 <;> cases tup <;>
      simp_all +decide [pymain, check_docker, check_docker_compose, get_user_input,
        create_directories, create_traefik_config, create_traefik_compose, create_test_compose,
        create_env_file, deploy_traefik, deploy_test_page, display_final_info,
        runCmdEff, isFsWrite, isUpCmd, confirmAccepted,
        List.countP_append, List.countP_cons]
  all_goals tauto

/-- C10 witness at a concrete environment. -/
theorem claim_c10_confirmation_gate_witness :
    (envC.dockerVersionOk = true ∧ envC.dockerInfoOk = true
     ∧ (envC.composeV2Ok || envC.composeV1Ok) = true ∧ pyStrip envC.testDomain ≠ "")
    ∧ ((pymain envC).exitCode = 0
       ∧ ((pymain envC).trace.countP isFsWrite = 0 ↔ confirmAccepted envC.confirm = false)
       ∧ ((pymain envC).trace.countP isUpCmd = 0 ↔ confirmAccepted envC.confirm = false)
       ∧ confirmAccepted envC.confirm
           = (pyLower (pyStrip envC.confirm) == "y" || pyLower (pyStrip envC.confirm) == "yes")) :=
  ⟨⟨rfl, rfl, rfl, by decide⟩,
   claim_c10_confirmation_gate envC rfl rfl rfl (by decide)⟩

/-- C6: configuration materialization is deterministic. Two runs whose raw
email and test-domain inputs coincide and that both reach materialization
(checks pass, confirmation not declined) write byte-identical configuration
artifacts, whatever their clocks, network lists or command outcomes. -/
theorem claim_c6_deterministic_artifacts (env₁ env₂ : Env)
    (hemail : env₁.email = env₂.email) (hdomain : env₁.testDomain = env₂.testDomain)
    (h1 : env₁.dockerVersionOk = true) (h2 : env₁.dockerInfoOk = true)
    (h3 : (env₁.composeV2Ok || env₁.composeV1Ok) = true)
    (h4 : (pyStrip env₁.testDomain == "" || confirmAccepted env₁.confirm) = true)
    (h5 : env₂.dockerVersionOk = true) (h6 : env₂.dockerInfoOk = true)
    (h7 : (env₂.composeV2Ok || env₂.composeV1Ok) = true)
    (h8 : (pyStrip env₂.testDomain == "" || confirmAccepted env₂.confirm) = true) :
    artifactWrites (pymain env₁).trace = artifactWrites (pymain env₂).trace := by
  rw [artifactWrites_pymain env₁ h1 h2 h3 h4, artifactWrites_pymain env₂ h5 h6 h7 h8,
    hemail, hdomain]

/-- C6 witness: two concrete environments with identical inputs but different
clock, network list and pull outcome. -/
theorem claim_c6_deterministic_artifacts_witness :
    envA.email = envB.email ∧ envA.testDomain = envB.testDomain
    ∧ envA.dockerVersionOk = true ∧ envA.dockerInfoOk = true
    ∧ (envA.composeV2Ok || envA.composeV1Ok) = true
    ∧ (pyStrip envA.testDomain == "" || confirmAccepted envA.confirm) = true
    ∧ envB.dockerVersionOk = true ∧ envB.dockerInfoOk = true
    ∧ (envB.composeV2Ok || envB.composeV1Ok) = true
    ∧ (pyStrip envB.testDomain == "" || confirmAccepted envB.confirm) = true
    ∧ artifactWrites (pymain envA).trace = artifactWrites (pymain envB).trace :=
  ⟨rfl, rfl, rfl, rfl, rfl, by decide, rfl, rfl, rfl, by decide,
   claim_c6_deterministic_artifacts envA envB rfl rfl rfl rfl rfl (by decide)
     rfl rfl rfl (by decide)⟩
